import Mathlib

/-!
Verification of the clx course-build orchestrator.

This file is a shallow embedding of the parts of the code base that the
specification talks about: the bilingual text utilities, the output-path
computation, the course/section/notebook numbering, the operation tree,
the NATS request/reply handling of the conversion operations, and the
stream bootstrap of the nats-init service.  Python exceptions are
modelled as explicit error values, mutable state as explicit state
passing, and the broker as an environment that supplies the outcome of
each broker call.
-/

namespace Clx

/-! ### Errors

Python exceptions that occur in the modelled code, as an explicit error
type. -/

inductive PyErr where
  | keyError (key : String)
  | attributeError
  | typeError (msg : String)
  | valueError (msg : String)
  | fileNotFoundError
  | connectionError
  | jsonDecodeError
  | publishError
deriving DecidableEq, Repr

/-! ### Bilingual text (src/clx/utils/text_utils.py) -/

/-- Bilingual string, class Text of text_utils.py. -/
structure Text where
  de : String
  en : String
deriving DecidableEq, Repr

/-- Attribute lookup used by Text.__getitem__ (getattr): only the de and
en attributes exist, any other key raises AttributeError, modelled as
none. -/
def Text.get (t : Text) : String → Option String
  | "de" => some t.de
  | "en" => some t.en
  | _ => none

/-- TEXT_MAPPINGS of text_utils.py, exactly the keys present in the
source.  Note that there is no entry for the language codes de and en
and that the key for the code-along mode is spelled code_along with an
underscore. -/
def TEXT_MAPPINGS : List (String × Text) :=
  [ ("code", ⟨"Python", "Python"⟩),
    ("html", ⟨"Html", "Html"⟩),
    ("notebook", ⟨"Notebooks", "Notebooks"⟩),
    ("code_along", ⟨"Code-Along", "Code-Along"⟩),
    ("completed", ⟨"Completed", "Completed"⟩),
    ("speaker", ⟨"Speaker", "Speaker"⟩),
    ("slides", ⟨"Folien", "Slides"⟩) ]

/-- as_dir_name of text_utils.py: TEXT_MAPPINGS[name][lang].  A missing
key raises KeyError; a lang other than de and en makes the attribute
lookup on the Text value raise, modelled as AttributeError. -/
def as_dir_name (name lang : String) : Except PyErr String :=
  match TEXT_MAPPINGS.lookup name with
  | none => .error (.keyError name)
  | some t =>
    match t.get lang with
    | none => .error .attributeError
    | some s => .ok s

/-- Character translation table of sanitize_file_name: braces and
brackets are replaced by parentheses, a fixed set of characters by an
underscore, and another fixed set is deleted.  Characters that are
awkward to write as literals are given by code point: 123 and 125 are
the braces, 96 is the backtick, 39 the apostrophe, 34 the double quote,
8364 the euro sign. -/
def sanitizeChar (c : Char) : Option Char :=
  if c = Char.ofNat 123 ∨ c = '[' then some '('
  else if c = Char.ofNat 125 ∨ c = ']' then some ')'
  else if c = '/' ∨ c = '\\' ∨ c = '$' ∨ c = '#' ∨ c = '%' ∨ c = '&' ∨ c = '<' ∨
          c = '>' ∨ c = '*' ∨ c = '=' ∨ c = '^' ∨ c = Char.ofNat 8364 ∨ c = '|' then
    some '_'
  else if c = ';' ∨ c = '!' ∨ c = '?' ∨ c = Char.ofNat 34 ∨ c = Char.ofNat 39 ∨
          c = Char.ofNat 96 ∨ c = '.' ∨ c = ':' then
    none
  else some c

/-- sanitize_file_name of text_utils.py: strip surrounding whitespace,
then apply the translation table. -/
def sanitize_file_name (text : String) : String :=
  String.mk (text.trim.toList.filterMap sanitizeChar)

/-! ### Formats and output specs (src/clx/utils/path_utils.py) -/

/-- ext_for of path_utils.py: map a format name to a file extension and
raise ValueError for anything else. -/
def ext_for : String → Except PyErr String
  | "html" => .ok ".html"
  | "notebook" => .ok ".ipynb"
  | "code" => .ok ".py"
  | f => .error (.valueError f)

/-- File system paths, as lists of path segments. -/
abbrev FsPath := List String

/-- The part of Course that OutputSpec uses: the bilingual course
name. -/
structure CourseT where
  name : Text
deriving DecidableEq, Repr

/-- One constructed OutputSpec value: the language, format and mode
strings and the derived output directory. -/
structure OutputSpecV where
  lang : String
  format : String
  mode : String
  output_dir : FsPath
deriving DecidableEq, Repr

/-- Directory assembly inside OutputSpec.__attrs_post_init__: the root
directory followed by the language dir name, the sanitized course name,
the format dir name and the mode dir name.  There is no further segment
between the course name and the format dir name. -/
def output_spec_dir_parts (root_dir : FsPath)
    (langDir courseName formatDir modeDir : String) : FsPath :=
  root_dir ++ [langDir, sanitize_file_name courseName, formatDir, modeDir]

/-- OutputSpec construction (path_utils.py, OutputSpec and its
__attrs_post_init__): the three dir names are as_dir_name lookups and
the course name is the Text lookup at the spec language; any raise
aborts the construction. -/
def mkOutputSpec (course : CourseT) (lang format mode : String)
    (root_dir : FsPath) : Except PyErr OutputSpecV := do
  let l ← as_dir_name lang lang
  let f ← as_dir_name format lang
  let m ← as_dir_name mode lang
  let cn ←
    match course.name.get lang with
    | some s => Except.ok s
    | none => Except.error PyErr.attributeError
  Except.ok ⟨lang, format, mode, output_spec_dir_parts root_dir l cn f m⟩

/-- The loop nest of output_specs (path_utils.py 147-165): two languages
times two formats times two modes, followed by the code format in
completed mode for each language. -/
def variant_triples : List (String × String × String) :=
  ((["de", "en"].flatMap fun l =>
      ["html", "notebook"].flatMap fun f =>
        ["code-along", "completed"].map fun m => (l, f, m)))
    ++ (["de", "en"].map fun l => (l, "code", "completed"))

/-- output_specs of path_utils.py: construct an OutputSpec for every
variant triple, in loop order; a raise during one construction aborts
the whole generator, which mapM over Except reproduces. -/
def output_specs (course : CourseT) (root_dir : FsPath) :
    Except PyErr (List OutputSpecV) :=
  variant_triples.mapM fun t => mkOutputSpec course t.1 t.2.1 t.2.2 root_dir

/-- File.output_dir (src/clx/file.py 67-68): the target directory with
the section name in the requested language appended. -/
def file_output_dir (target_dir : FsPath) (sectionName : Text)
    (lang : String) : Except PyErr FsPath :=
  match sectionName.get lang with
  | some s => .ok (target_dir ++ [s])
  | none => .error .attributeError

/-- Modelled from the spec: the output directory formula of section 3,
root followed by the language dir name, the course name, the literal
segment Slides, the format dir name, the mode dir name and the section
name. -/
def spec_output_dir_formula (root : FsPath)
    (langDir courseName formatDir modeDir sectionName : String) : FsPath :=
  root ++ [langDir, courseName, "Slides", formatDir, modeDir, sectionName]

/-- The directory formula actually implemented by the code: root,
language dir name, sanitized course name, format dir name, mode dir
name, section name, with no Slides segment. -/
def amended_output_dir_formula (root : FsPath)
    (langDir courseName formatDir modeDir sectionName : String) : FsPath :=
  root ++ [langDir, sanitize_file_name courseName, formatDir, modeDir, sectionName]

/-! ### Notebook file names (src/clx/file.py 216-217) -/

/-- Python format spec 02 on a natural number: the decimal digits,
left-padded with zeros to width two. -/
def formatNum02 (n : Nat) : String :=
  let s := toString n
  if s.length < 2 then "0" ++ s else s

/-- Notebook.file_name: the two-digit section ordinal, a space, the
title in the requested language, and the extension. -/
def notebook_file_name (number_in_section : Nat) (title : Text)
    (lang ext : String) : Except PyErr String :=
  match title.get lang with
  | some t => .ok (formatNum02 number_in_section ++ " " ++ t ++ ext)
  | none => .error .attributeError

/-! ### Sections and notebook numbering (src/clx/course.py 43-45, 254-261)

A file of the content model is abstracted to the data the numbering
logic uses: whether it is a notebook, and its number_in_section field.
A topic is its ordered list of files; a section is its ordered list of
topics. -/

structure ContentFile where
  isNotebook : Bool
  number_in_section : Nat
deriving DecidableEq, Repr

abbrev TopicFiles := List ContentFile

abbrev SectionFiles := List TopicFiles

/-- Section.files: the files of all topics, flattened in topic order. -/
def section_files (s : SectionFiles) : List ContentFile := s.flatten

/-- Section.notebooks: the notebook files in topic-then-file order. -/
def section_notebooks (s : SectionFiles) : List ContentFile :=
  (section_files s).filter (fun f => f.isNotebook)

/-- Helper for add_notebook_numbers: walk the files of one topic in
order, assigning the running counter to each notebook. -/
def renumber_files (counter : Nat) : List ContentFile → Nat × List ContentFile
  | [] => (counter, [])
  | f :: fs =>
    if f.isNotebook then
      ((renumber_files (counter + 1) fs).1,
        { f with number_in_section := counter } :: (renumber_files (counter + 1) fs).2)
    else
      ((renumber_files counter fs).1, f :: (renumber_files counter fs).2)

/-- Helper for add_notebook_numbers: thread the counter through the
topics in order. -/
def renumber_topics (counter : Nat) : SectionFiles → Nat × SectionFiles
  | [] => (counter, [])
  | t :: ts =>
    ((renumber_topics (renumber_files counter t).1 ts).1,
      (renumber_files counter t).2 :: (renumber_topics (renumber_files counter t).1 ts).2)

/-- Section.add_notebook_numbers (course.py 43-45): enumerate the
section's notebooks starting at 1 and store each index in the notebook's
number_in_section field.  The in-place mutation of the shared file
objects is modelled by rebuilding the topic lists. -/
def add_notebook_numbers (s : SectionFiles) : SectionFiles :=
  (renumber_topics 1 s).2

/-- Course._build_topics followed by add_notebook_numbers, as called by
Course._build_sections (course.py 254-271): topic ids that do not
resolve are skipped, then the section is numbered once. -/
def build_section (resolved : List (Option TopicFiles)) : SectionFiles :=
  add_notebook_numbers (resolved.filterMap id)

/-- Course._build_sections: every section spec is built and numbered
independently. -/
def build_course_sections (specs : List (List (Option TopicFiles))) :
    List SectionFiles :=
  specs.map build_section

/-- A notebook as constructed by CourseFile creation during add_file:
the number_in_section attrs default is 0 (src/clx/file.py 193). -/
def new_notebook : ContentFile := ⟨true, 0⟩

/-- Topic.add_file for a path not yet present: the new file is appended
to the topic's file map; neither Topic.add_file nor Course.add_file
renumbers the section. -/
def topic_add_file (t : TopicFiles) (f : ContentFile) : TopicFiles :=
  t ++ [f]

/-- Dense numbering: the notebooks of the section, in topic-then-file
order, carry exactly the numbers 1..N. -/
def dense_numbering (s : SectionFiles) : Prop :=
  (section_notebooks s).map (fun f => f.number_in_section)
    = List.range' 1 (section_notebooks s).length

instance (s : SectionFiles) : Decidable (dense_numbering s) := by
  unfold dense_numbering; infer_instance

/-! ### The operation tree (src/clx/operation.py)

An executed operation is modelled by its effect on a state: it returns
the optionally raised exception together with the state holding the
effects it performed before returning or raising. -/

abbrev OpFun (St : Type) := St → Option PyErr × St

/-- Run a list of operations, collecting every outcome and threading the
state: the linearization of a gather in which no child is cancelled and
every child runs to completion. -/
def run_all {St : Type} : List (OpFun St) → St → List (Option PyErr) × St
  | [], s => ([], s)
  | op :: ops, s =>
    ((op s).1 :: (run_all ops (op s).2).1, (run_all ops (op s).2).2)

/-- The first raised exception among the outcomes, if any. -/
def first_error : List (Option PyErr) → Option PyErr
  | [] => none
  | some e :: _ => some e
  | none :: rs => first_error rs

/-- Concurrently.exec (operation.py 39-42): asyncio.gather without
return_exceptions.  Per the documented gather semantics a child's
exception does not cancel its siblings, which keep running, but the
first exception is propagated to the awaiter and the individual results
are discarded. -/
def concurrently_exec {St : Type} (ops : List (OpFun St)) (s : St) :
    Option PyErr × St :=
  (first_error (run_all ops s).1, (run_all ops s).2)

/-- The chunk-level gather of Course.process_all (course.py 241-243):
return_exceptions is true, so every outcome, success or failure, is
collected and nothing is raised. -/
def gather_return_exceptions {St : Type} (ops : List (OpFun St)) (s : St) :
    List (Option PyErr) × St :=
  run_all ops s

/-! ### JSON values and reply decoding -/

inductive Json where
  | str (s : String)
  | num (n : Int)
  | bool (b : Bool)
  | null
  | arr (elems : List Json)
  | obj (fields : List (String × Json))

/-- Python truthiness of a JSON value. -/
def Json.truthy : Json → Bool
  | .str s => s != ""
  | .num n => n != 0
  | .bool b => b
  | .null => false
  | .arr xs => !xs.isEmpty
  | .obj fs => !fs.isEmpty

/-- Truthiness of a dict.get result, where a missing key gives None. -/
def optTruthy : Option Json → Bool
  | none => false
  | some v => v.truthy

/-- Outcome of write_notebook_to_file for one decoded reply. -/
inductive NbWriteOutcome where
  | wrote (content : String)
  | workerErrorLogged (error : Json)
  | noResultKeyLogged
  | notDictLogged
  | raised (e : PyErr)

/-- ProcessNotebookOperation.write_notebook_to_file (file_ops.py
258-274), applied to the decoded JSON payload.  The walrus conditions
test truthiness, so a falsy result value (such as the empty string)
falls through to the error branch and a falsy error value falls through
to the protocol-error log; writing a non-string result raises
TypeError. -/
def write_notebook_to_file (data : Json) : NbWriteOutcome :=
  match data with
  | .obj fields =>
    let r := fields.lookup "result"
    if optTruthy r then
      match r with
      | some (.str s) => .wrote s
      | _ => .raised (.typeError "write_text expects str")
    else if optTruthy (fields.lookup "error") then
      match fields.lookup "error" with
      | some e => .workerErrorLogged e
      | none => .noResultKeyLogged
    else .noResultKeyLogged
  | _ => .notDictLogged

/-- Outcome of the reply handling inside process_image_request. -/
inductive ImgWriteOutcome where
  | wrote (content : String)
  | skipped
  | raised (e : PyErr)
deriving DecidableEq, Repr

/-- Reply handling of process_image_request (nats_utils.py 99-107):
only a dict with a string result key is handled.  result.get with a
missing result key returns None, whose encode call raises
AttributeError; encode on a non-string also raises AttributeError; an
empty result string is falsy and skips the write; a non-dict reply is
silently ignored.  There is no branch that inspects an error key.
Base64 decoding of a non-empty result is modelled as the identity on
the transported text. -/
def decode_image_reply (result : Json) : ImgWriteOutcome :=
  match result with
  | .obj fields =>
    match fields.lookup "result" with
    | some (.str s) => if s = "" then .skipped else .wrote s
    | some _ => .raised .attributeError
    | none => .raised .attributeError
  | _ => .skipped

/-! ### The request/reply protocol (nats_utils.py, file_ops.py)

The broker interaction of one request is modelled by an environment
that fixes the outcome of each broker call, and by the trace of subject
level events the code performs in order. -/

inductive NatsEvent where
  | subscribeEv (subject stream : String)
  | flushEv
  | publishEv (subject stream : String)
  | nextMsgEv
  | ackEv
deriving DecidableEq, Repr

/-- Outcome of one js.publish call. -/
inductive PubAttempt where
  | pubOk
  | pubCancelled
  | pubHardError
deriving DecidableEq, Repr

/-- How the publish retry loop ends. -/
inductive PubLoopResult where
  | published
  | hardFailed
  | exhausted
deriving DecidableEq, Repr

/-- The payload of a received reply message: empty bytes, bytes that are
not valid JSON, or a decoded JSON value. -/
inductive ReplyPayload where
  | emptyData
  | rawInvalid
  | jsonData (j : Json)

/-- Environment of one request/reply exchange: whether nats.connect and
the subscribe plus flush succeed, the outcome of each successive publish
attempt, and the reply message the wait loop obtains, if any. -/
structure RpcEnv where
  connectOk : Bool
  subscribeOk : Bool
  pubResults : Nat → PubAttempt
  reply : Option ReplyPayload

/-- The publish retry loop shared by process_image_request (nats_utils
73-96) and send_nb_process_msg (file_ops 196-219): up to ten attempts, a
CancelledError retries, success breaks, any other exception is raised;
when all ten attempts are cancelled the loop simply ends and execution
falls through to the wait.  Every attempt is one js.publish call and
contributes one publish event. -/
def run_publish_loop (res : Nat → PubAttempt) (i fuel : Nat)
    (subject stream : String) : List NatsEvent × PubLoopResult :=
  match fuel with
  | 0 => ([], .exhausted)
  | fuel + 1 =>
    match res i with
    | .pubOk => ([.publishEv subject stream], .published)
    | .pubHardError => ([.publishEv subject stream], .hardFailed)
    | .pubCancelled =>
      let (evs, r) := run_publish_loop res (i + 1) fuel subject stream
      (.publishEv subject stream :: evs, r)

/-- Result of one modelled request/reply call: the exception escaping
the call, the content written to the operation's output file, the
outcome of the image reply handling when it was reached, and the event
trace. -/
structure ImgRpcResult where
  raisedOut : Option PyErr
  wroteFile : Option String
  decodeOutcome : Option ImgWriteOutcome
  trace : List NatsEvent

/-- process_image_request (nats_utils.py 50-112).  nats.connect happens
before the try block, so a connection failure is the only exception that
escapes; everything inside the try block, including subscribe errors,
publish hard errors, a missing reply, an undecodable payload and every
decode error, is caught by the except clause, logged and swallowed.  The
subscription and the flush happen before the first publish attempt, and
the received message is acknowledged before it is parsed. -/
def process_image_request (env : RpcEnv)
    (replySubject natsSubject natsStreamName : String) : ImgRpcResult :=
  if !env.connectOk then ⟨some .connectionError, none, none, []⟩
  else if !env.subscribeOk then ⟨none, none, none, []⟩
  else
    let subEvs : List NatsEvent :=
      [.subscribeEv replySubject "IMG_RESULT_STREAM", .flushEv]
    let plr := run_publish_loop env.pubResults 0 10 natsSubject natsStreamName
    match plr.2 with
    | .hardFailed => ⟨none, none, none, subEvs ++ plr.1⟩
    | _ =>
      match env.reply with
      | none => ⟨none, none, none, subEvs ++ plr.1 ++ [.nextMsgEv]⟩
      | some payload =>
        let evs := subEvs ++ plr.1 ++ [.nextMsgEv, .ackEv]
        match payload with
        | .emptyData => ⟨none, none, none, evs⟩
        | .rawInvalid => ⟨none, none, none, evs⟩
        | .jsonData j =>
          match decode_image_reply j with
          | .wrote s => ⟨none, some s, some (.wrote s), evs⟩
          | d => ⟨none, none, some d, evs⟩

/-- Result of the modelled notebook request. -/
structure NbRpcResult where
  raisedOut : Option PyErr
  wroteFile : Option String
  decodeOutcome : Option NbWriteOutcome
  trace : List NatsEvent

/-- ProcessNotebookOperation.process_request (file_ops.py 141-165) with
its helpers.  nats.connect is again outside the try block; subscribe
errors, publish hard errors, the TypeError raised when the wait loop
times out, a JSON decode error and a TypeError from writing a non-string
result are all caught and swallowed.  A message with empty data is
logged and not decoded.  Subscribe and flush precede the publish
attempts; the message is acknowledged inside the wait loop before
parsing. -/
def process_nb_request (env : RpcEnv) (replySubject : String) : NbRpcResult :=
  if !env.connectOk then ⟨some .connectionError, none, none, []⟩
  else if !env.subscribeOk then ⟨none, none, none, []⟩
  else
    let subEvs : List NatsEvent :=
      [.subscribeEv replySubject "NOTEBOOK_RESULT_STREAM", .flushEv]
    let plr :=
      run_publish_loop env.pubResults 0 10 "notebook.process" "NOTEBOOK_PROCESS_STREAM"
    match plr.2 with
    | .hardFailed => ⟨none, none, none, subEvs ++ plr.1⟩
    | _ =>
      match env.reply with
      | none => ⟨none, none, none, subEvs ++ plr.1 ++ [.nextMsgEv]⟩
      | some payload =>
        let evs := subEvs ++ plr.1 ++ [.nextMsgEv, .ackEv]
        match payload with
        | .emptyData => ⟨none, none, none, evs⟩
        | .rawInvalid => ⟨none, none, none, evs⟩
        | .jsonData j =>
          match write_notebook_to_file j with
          | .wrote s => ⟨none, some s, some (.wrote s), evs⟩
          | d => ⟨none, none, some d, evs⟩

/-! ### Leaf file operations (src/clx/file_ops.py)

The state a leaf operation touches: the set of paths present on disk
and the owning file's generated_outputs set. -/

structure FileOpState where
  disk : List FsPath
  generated_outputs : List FsPath
deriving DecidableEq

/-- Adding a path to a Python set: already-present paths are not
duplicated. -/
def setAdd (paths : List FsPath) (p : FsPath) : List FsPath :=
  paths.insert p

/-- The shared tail of every conversion exec: when the request helper
raised, the exception propagates and the state is untouched; otherwise
the artifact, if any, is on disk and the output path is added to the
owning file's generated_outputs unconditionally. -/
def record_output_after (raised : Option PyErr) (wrote : Option String)
    (st : FileOpState) (output_file : FsPath) : Option PyErr × FileOpState :=
  match raised with
  | some e => (some e, st)
  | none =>
    match wrote with
    | some _ =>
      (none, ⟨setAdd st.disk output_file, setAdd st.generated_outputs output_file⟩)
    | none => (none, { st with generated_outputs := setAdd st.generated_outputs output_file })

/-- ConvertPlantUmlFile.exec (file_ops.py 54-61): run
process_image_request for the plantuml_process_stream, then add the
output file to the owning file's generated_outputs.  Only an exception
escaping process_image_request (a connection failure) prevents the
add. -/
def convert_plantuml_exec (env : RpcEnv) (st : FileOpState)
    (replySubject : String) (output_file : FsPath) : Option PyErr × FileOpState :=
  let r := process_image_request env replySubject "plantuml.process" "PLANTUML_PROCESS_STREAM"
  record_output_after r.raisedOut r.wroteFile st output_file

/-- ConvertDrawIoFile.exec (file_ops.py 64-72): identical to the
PlantUML case up to the subject and stream names. -/
def convert_drawio_exec (env : RpcEnv) (st : FileOpState)
    (replySubject : String) (output_file : FsPath) : Option PyErr × FileOpState :=
  let r := process_image_request env replySubject "drawio.process" "DRAWIO_PROCESS_STREAM"
  record_output_after r.raisedOut r.wroteFile st output_file

/-- CopyFileOperation.exec (file_ops.py 76-85): shutil.copyfile raises
when the input file is missing, leaving generated_outputs untouched; on
success the copy is written and recorded. -/
def copy_file_exec (st : FileOpState) (input_path output_file : FsPath) :
    Option PyErr × FileOpState :=
  if input_path ∈ st.disk then
    (none,
      { disk := setAdd st.disk output_file,
        generated_outputs := setAdd st.generated_outputs output_file })
  else (some .fileNotFoundError, st)

/-- ProcessNotebookOperation.exec (file_ops.py 127-139): run
process_request, then record the output file; an exception from
process_request is logged and re-raised, leaving generated_outputs
untouched.  Since process_request swallows every error after the
connect, the record happens whenever the connection succeeded. -/
def process_notebook_exec (env : RpcEnv) (st : FileOpState)
    (replySubject : String) (output_file : FsPath) : Option PyErr × FileOpState :=
  let r := process_nb_request env replySubject
  record_output_after r.raisedOut r.wroteFile st output_file

/-- DeleteFileOperation.exec (file_ops.py 41-44): unlink the recorded
artifact, then remove it from the owning file's generated_outputs.
Path.unlink raises FileNotFoundError when the artifact is not on disk,
and the remove is then not reached. -/
def delete_file_exec (file_to_delete : FsPath) : OpFun FileOpState :=
  fun st =>
    if file_to_delete ∈ st.disk then
      (none,
        { disk := st.disk.erase file_to_delete,
          generated_outputs := st.generated_outputs.erase file_to_delete })
    else (some .fileNotFoundError, st)

/-- File.delete_op (src/clx/file.py 80-86): one DeleteFileOperation per
recorded output, run concurrently; an empty generated_outputs set gives
a NoOperation, modelled as the empty operation list. -/
def file_delete_ops (generated_outputs : List FsPath) : List (OpFun FileOpState) :=
  generated_outputs.map delete_file_exec

/-- Executing a file's delete operation on a state. -/
def run_delete_op (st : FileOpState) : Option PyErr × FileOpState :=
  concurrently_exec (file_delete_ops st.generated_outputs) st

/-! ### Stream bootstrap (src/services/nats-init/nats_init.py)

The broker is a list of streams, each a name with its subject list; the
environment fixes the outcome of each js.add_stream call per stream name
and attempt index. -/

abbrev Broker := List (String × List String)

/-- Outcome of one js.add_stream call. -/
inductive AddRes where
  | addOk
  | addTimeout
  | addNotFound
deriving DecidableEq, Repr

structure InitEnv where
  addResult : String → Nat → AddRes

/-- Broker-side lookup of a stream by name, the state js.stream_info
queries. -/
def find_stream : Broker → String → Option (List String)
  | [], _ => none
  | p :: bs, n => if p.1 = n then some p.2 else find_stream bs n

/-- does_stream_exist (nats_init.py 106-113). -/
def stream_exists (b : Broker) (name : String) : Bool :=
  (find_stream b name).isSome

/-- js.delete_stream: remove the stream; the NotFoundError for a missing
stream is caught by the caller. -/
def delete_stream (b : Broker) (name : String) : Broker :=
  b.filter fun p => p.1 != name

/-- js.add_stream: declare the stream with its subjects. -/
def add_stream (b : Broker) (name : String) (subjects : List String) : Broker :=
  b ++ [(name, subjects)]

/-- The retry loop of create_stream (nats_init.py 80-101): up to five
attempts; an existing stream is success, a timeout or a missing server
retries after a sleep, success breaks.  When the attempts are exhausted
the surrounding catch-all leaves the broker as it is. -/
def create_stream_loop (env : InitEnv) (name : String) (subjects : List String)
    (i : Nat) : Nat → Broker → Broker
  | 0, b => b
  | fuel + 1, b =>
    if stream_exists b name then b
    else
      match env.addResult name i with
      | .addOk => add_stream b name subjects
      | _ => create_stream_loop env name subjects (i + 1) fuel b

/-- create_stream (nats_init.py 71-103): optionally force-delete the
pre-existing definition, then run the retry loop; every exception
inside is caught and logged, so create_stream never raises. -/
def create_stream (env : InitEnv) (forceDelete : Bool) (b : Broker)
    (name : String) (subjects : List String) : Broker :=
  let b1 := if forceDelete then delete_stream b name else b
  create_stream_loop env name subjects 0 5 b1

/-- NATS_STREAMS of nats_init.py: the five work-queue channels. -/
def NATS_INIT_STREAMS : List (String × List String) :=
  [ ("DRAWIO_PROCESS_STREAM", ["drawio.process", "drawio.process.>"]),
    ("PLANTUML_PROCESS_STREAM", ["plantuml.process", "plantuml.process.>"]),
    ("IMG_RESULT_STREAM", ["img.result", "img.result.>"]),
    ("NOTEBOOK_PROCESS_STREAM", ["notebook.process", "notebook.process.>"]),
    ("NOTEBOOK_RESULT_STREAM", ["notebook.result", "notebook.result.>"]) ]

/-- create_streams (nats_init.py 53-68): every stream is attempted in
order, each attempt wrapped in its own try/except, so no outcome stops
the loop.  The result is the final broker state together with the list
of attempted stream names. -/
def create_streams (env : InitEnv) (forceDelete : Bool) (b : Broker) :
    Broker × List String :=
  NATS_INIT_STREAMS.foldl
    (fun acc s => (create_stream env forceDelete acc.1 s.1 s.2, acc.2 ++ [s.1]))
    (b, [])

/-- The environment in which every add_stream call succeeds. -/
def allOkEnv : InitEnv := ⟨fun _ _ => .addOk⟩

/-- A faulty environment: every add_stream call for the drawio channel
times out, all other calls succeed. -/
def drawioFaultyEnv : InitEnv :=
  ⟨fun name _ => if name = "DRAWIO_PROCESS_STREAM" then .addTimeout else .addOk⟩

/-! ## Theorems for the specification claims -/

/-- Claim C10: for every Notebook and output variant the generated file
name is the number_in_section left-padded with zeros to two digits, a
space, the title in the variant's language, and the extension chosen by
ext_for, which maps html, notebook and code to .html, .ipynb and .py and
raises ValueError for any other format string. -/
theorem C10_notebook_file_name :
    (∀ (n : Nat) (title : Text) (lang ext t : String), title.get lang = some t →
        notebook_file_name n title lang ext
          = .ok (formatNum02 n ++ " " ++ t ++ ext)) ∧
    (∀ n : Nat, n < 10 → formatNum02 n = "0" ++ toString n) ∧
    (∀ n : Nat, n < 100 → (formatNum02 n).length = 2) ∧
    ext_for "html" = .ok ".html" ∧
    ext_for "notebook" = .ok ".ipynb" ∧
    ext_for "code" = .ok ".py" ∧
    (∀ f : String, f ≠ "html" → f ≠ "notebook" → f ≠ "code" →
        ext_for f = .error (.valueError f)) := by
  refine ⟨?_, ?_, ?_, rfl, rfl, rfl, ?_⟩
  · intro n title lang ext t h
    unfold notebook_file_name
    rw [h]
  · intro n h
    interval_cases n <;> rfl
  · intro n h
    interval_cases n <;> rfl
  · intro f h1 h2 h3
    unfold ext_for
    split
    · exact absurd rfl h1
    · exact absurd rfl h2
    · exact absurd rfl h3
    · rfl

/-- Witness for C10: concrete evaluations discharging the hypotheses of
the claim theorem. -/
theorem C10_witness :
    notebook_file_name 7 ⟨"Folien von Test 1", "Some Topic from Test 1"⟩ "de" ".html"
      = .ok "07 Folien von Test 1.html" ∧
    ext_for "pdf" = .error (.valueError "pdf") := by
  constructor
  · have h := C10_notebook_file_name.1 7
      ⟨"Folien von Test 1", "Some Topic from Test 1"⟩ "de" ".html"
      "Folien von Test 1" rfl
    rw [h]
    rfl
  · exact C10_notebook_file_name.2.2.2.2.2.2 "pdf"
      (by decide) (by decide) (by decide)

/-- Claim C7 (code bug): output_specs is meant to yield exactly the ten
variants, the eight language times html/notebook times mode combinations
plus the code format in completed mode per language, and the variant
triples enumerated by its loops are exactly those; but constructing the
very first OutputSpec raises KeyError because TEXT_MAPPINGS has no entry
for the language key de (nor en, nor the code-along mode key), so
iterating output_specs raises instead of yielding the ten variants. -/
theorem C7_output_specs_keyerror :
    (∀ (course : CourseT) (root_dir : FsPath),
        output_specs course root_dir = .error (.keyError "de")) ∧
    variant_triples =
      [("de", "html", "code-along"), ("de", "html", "completed"),
       ("de", "notebook", "code-along"), ("de", "notebook", "completed"),
       ("en", "html", "code-along"), ("en", "html", "completed"),
       ("en", "notebook", "code-along"), ("en", "notebook", "completed"),
       ("de", "code", "completed"), ("en", "code", "completed")] ∧
    variant_triples.length = 10 ∧
    variant_triples.filter (fun t => t.2.1 == "code" && t.2.2 == "code-along")
      = [] := by
  refine ⟨fun course root_dir => rfl, by decide, by decide, by decide⟩

/-- Claim C3 counterexample: at a concrete course, variant and root the
code does not produce the directory demanded by the claim.  The
OutputSpec construction for the de/html/code-along variant raises
KeyError, so in particular its result differs from the claimed Slides
path, and even the directory formula implemented by the code differs
from the spec formula at the dir names the repository tests expect,
because the code inserts no Slides segment. -/
theorem C3_counterexample :
    (mkOutputSpec ⟨⟨"Mein Kurs", "My Course"⟩⟩ "de" "html" "code-along" ["out"]).bind
        (fun spec => file_output_dir spec.output_dir ⟨"Woche 1", "Week 1"⟩ "de")
      = .error (.keyError "de") ∧
    (Except.error (.keyError "de") : Except PyErr FsPath)
      ≠ .ok (spec_output_dir_formula ["out"] "De" "Mein Kurs" "Html" "Code-Along" "Woche 1") ∧
    amended_output_dir_formula ["out"] "De" "Mein Kurs" "Html" "Code-Along" "Woche 1"
      ≠ spec_output_dir_formula ["out"] "De" "Mein Kurs" "Html" "Code-Along" "Woche 1" := by
  refine ⟨rfl, ?_, ?_⟩
  · intro h
    exact Except.noConfusion h
  · intro h
    have := congrArg List.length h
    simp [amended_output_dir_formula, spec_output_dir_formula] at this

/-- Claim C3 amended: the output directory of a variant is assembled as
root, language dir name, sanitized course name, format dir name, mode
dir name, and then File.output_dir appends the section name of the
requested language, with the output placed at the relative path beneath
it; there is no Slides segment, so the code formula never coincides with
the spec formula.  Moreover with the TEXT_MAPPINGS of the source the
dir-name lookup fails for both built-in languages, so OutputSpec
construction raises KeyError for every variant. -/
theorem C3_amended :
    (∀ (course : CourseT) (f m : String) (root : FsPath),
        mkOutputSpec course "de" f m root = .error (.keyError "de") ∧
        mkOutputSpec course "en" f m root = .error (.keyError "en")) ∧
    (∀ (root : FsPath) (l cn f m : String) (sn : Text) (rel : FsPath),
        (file_output_dir (output_spec_dir_parts root l cn f m) sn "de").map (· ++ rel)
          = .ok (amended_output_dir_formula root l cn f m sn.de ++ rel) ∧
        (file_output_dir (output_spec_dir_parts root l cn f m) sn "en").map (· ++ rel)
          = .ok (amended_output_dir_formula root l cn f m sn.en ++ rel)) ∧
    (∀ (root : FsPath) (l cn f m sn : String),
        amended_output_dir_formula root l cn f m sn
          ≠ spec_output_dir_formula root l cn f m sn) := by
  refine ⟨fun course f m root => ⟨rfl, rfl⟩, ?_, ?_⟩
  · intro root l cn f m sn rel
    constructor <;>
      simp [file_output_dir, Text.get, output_spec_dir_parts,
        amended_output_dir_formula, Except.map, List.append_assoc]
  · intro root l cn f m sn h
    have := congrArg List.length h
    simp [amended_output_dir_formula, spec_output_dir_formula] at this

/-- Witness for C3: the amended theorem applied at the directory names
the repository tests expect. -/
theorem C3_witness :
    (file_output_dir (output_spec_dir_parts ["out"] "De" "Mein Kurs" "Html"
        "Code-Along") ⟨"Woche 1", "Week 1"⟩ "de").map (· ++ ["data", "x.csv"])
      = .ok (amended_output_dir_formula ["out"] "De" "Mein Kurs" "Html"
          "Code-Along" "Woche 1" ++ ["data", "x.csv"]) ∧
    mkOutputSpec ⟨⟨"Mein Kurs", "My Course"⟩⟩ "de" "html" "completed" ["out"]
      = .error (.keyError "de") := by
  exact ⟨(C3_amended.2.1 ["out"] "De" "Mein Kurs" "Html" "Code-Along"
      ⟨"Woche 1", "Week 1"⟩ ["data", "x.csv"]).1,
    (C3_amended.1 ⟨⟨"Mein Kurs", "My Course"⟩⟩ "html" "completed" ["out"]).1⟩

/-! ## Notebook numbering lemmas and the claim C5 theorems -/

lemma renumber_files_counter (c : Nat) (fs : List ContentFile) :
    (renumber_files c fs).1 = c + (fs.filter (fun f => f.isNotebook)).length := by
  induction fs generalizing c with
  | nil => simp [renumber_files]
  | cons f fs ih =>
    by_cases h : f.isNotebook
    · simp [renumber_files, h, ih, List.filter_cons]
      omega
    · simp [renumber_files, h, ih, List.filter_cons]

lemma renumber_files_nums (c : Nat) (fs : List ContentFile) :
    (((renumber_files c fs).2).filter (fun f => f.isNotebook)).map
        (fun f => f.number_in_section)
      = List.range' c (fs.filter (fun f => f.isNotebook)).length := by
  induction fs generalizing c with
  | nil => simp [renumber_files]
  | cons f fs ih =>
    by_cases h : f.isNotebook
    · simp [renumber_files, h, List.filter_cons, ih, List.range'_succ]
    · simp [renumber_files, h, List.filter_cons, ih]

lemma renumber_topics_counter (c : Nat) (ts : SectionFiles) :
    (renumber_topics c ts).1
      = c + (ts.flatten.filter (fun f => f.isNotebook)).length := by
  induction ts generalizing c with
  | nil => simp [renumber_topics]
  | cons t ts ih =>
    simp [renumber_topics, ih, renumber_files_counter, List.filter_append]
    omega

lemma renumber_topics_nums (c : Nat) (ts : SectionFiles) :
    ((renumber_topics c ts).2.flatten.filter (fun f => f.isNotebook)).map
        (fun f => f.number_in_section)
      = List.range' c (ts.flatten.filter (fun f => f.isNotebook)).length := by
  induction ts generalizing c with
  | nil => simp [renumber_topics]
  | cons t ts ih =>
    simp only [renumber_topics, List.flatten_cons, List.filter_append, List.map_append,
      renumber_files_nums, ih, renumber_files_counter, List.length_append]
    rw [List.range'_append_1, Nat.add_comm]

lemma add_notebook_numbers_dense (s : SectionFiles) :
    dense_numbering (add_notebook_numbers s) := by
  unfold dense_numbering section_notebooks section_files add_notebook_numbers
  have h := renumber_topics_nums 1 s
  rw [h]
  have hlen : ((renumber_topics 1 s).2.flatten.filter (fun f => f.isNotebook)).length
      = (s.flatten.filter (fun f => f.isNotebook)).length := by
    have h2 := congrArg List.length h
    simp only [List.length_map, List.length_range'] at h2
    exact h2
  rw [hlen]

/-- Claim C5 counterexample: a course with one section containing a
single notebook topic is densely numbered after the build, but adding a
second notebook through Topic.add_file leaves the section with the
ordinals 1 and 0, which is not a dense 1..N sequence: neither add_file
nor on_file_created renumbers the section. -/
theorem C5_counterexample :
    build_section [some [⟨true, 0⟩]] = [[⟨true, 1⟩]] ∧
    dense_numbering [[⟨true, 1⟩]] ∧
    ¬ dense_numbering [topic_add_file [⟨true, 1⟩] new_notebook] := by
  refine ⟨by decide, by decide, by decide⟩

/-- Claim C5 amended: after a course is built, every section's notebooks
carry number_in_section values forming a dense 1..N sequence in
topic-then-file order, because _build_sections renumbers each section
once; but Course.add_file merely appends the new file to the matching
topic, so an incrementally added notebook keeps the constructor default
ordinal 0 and the existing ordinals are not recomputed. -/
theorem C5_amended :
    (∀ specs : List (List (Option TopicFiles)),
        (build_course_sections specs).Forall dense_numbering) ∧
    (∀ t : TopicFiles,
        ((topic_add_file t new_notebook).filter (fun f => f.isNotebook)).map
            (fun f => f.number_in_section)
          = (t.filter (fun f => f.isNotebook)).map (fun f => f.number_in_section)
              ++ [0]) := by
  constructor
  · intro specs
    unfold build_course_sections
    rw [List.forall_iff_forall_mem]
    intro s hs
    rw [List.mem_map] at hs
    obtain ⟨resolved, _, rfl⟩ := hs
    exact add_notebook_numbers_dense _
  · intro t
    simp [topic_add_file, new_notebook, List.filter_append]

/-- Witness for C5: the amended theorem applied to a concrete course of
one section with two topics. -/
theorem C5_witness :
    dense_numbering
      (build_section [some [⟨true, 0⟩, ⟨false, 0⟩], some [⟨true, 7⟩]]) := by
  have h := C5_amended.1 [[some [⟨true, 0⟩, ⟨false, 0⟩], some [⟨true, 7⟩]]]
  rw [List.forall_iff_forall_mem] at h
  exact h _ (by simp [build_course_sections])

/-! ## Operation tree lemmas and the claim C2 theorems -/

lemma first_error_eq_none_iff (rs : List (Option PyErr)) :
    first_error rs = none ↔ ∀ r ∈ rs, r = none := by
  induction rs with
  | nil => simp [first_error]
  | cons r rs ih =>
    cases r with
    | none => simp [first_error, ih]
    | some e => simp [first_error]

lemma run_all_outcomes_length {St : Type} (ops : List (OpFun St)) (s : St) :
    (run_all ops s).1.length = ops.length := by
  induction ops generalizing s with
  | nil => rfl
  | cons op ops ih => simp [run_all, ih]

/-- Claim C2 counterexample: with two operations of which the first
fails and the second succeeds, Concurrently.exec propagates the first
operation's exception instead of returning the collected outcomes; the
sibling still ran (the state shows both effects) and the chunk-level
gather with return_exceptions is what collects both outcomes. -/
theorem C2_counterexample :
    concurrently_exec
        [fun s => (some (.typeError "boom"), s + 1), fun s => (none, s + 10)]
        (0 : Nat)
      = (some (.typeError "boom"), 11) ∧
    (concurrently_exec
        [fun s => (some (.typeError "boom"), s + 1), fun s => (none, s + 10)]
        (0 : Nat)).1 ≠ none ∧
    gather_return_exceptions
        [fun s => (some (.typeError "boom"), s + 1), fun s => (none, s + 10)]
        (0 : Nat)
      = ([some (.typeError "boom"), none], 11) := by
  refine ⟨rfl, by decide, rfl⟩

/-- Claim C2 amended: Concurrently(ops).exec() runs every operation and
a failure of one operation does not cancel its siblings: the final state
equals the state of the fail-soft gather and there is one outcome per
operation.  However exec itself does not collect the outcomes; it
propagates the first failure, and it returns normally exactly when every
operation succeeded.  Outcome collection happens at the chunk gather of
Course.process_all, which uses return_exceptions. -/
theorem C2_amended :
    ∀ (St : Type) (ops : List (OpFun St)) (s : St),
      (concurrently_exec ops s).2 = (gather_return_exceptions ops s).2 ∧
      (gather_return_exceptions ops s).1.length = ops.length ∧
      (concurrently_exec ops s).1 = first_error (gather_return_exceptions ops s).1 ∧
      ((concurrently_exec ops s).1 = none ↔
        ∀ r ∈ (gather_return_exceptions ops s).1, r = none) := by
  intro St ops s
  refine ⟨rfl, run_all_outcomes_length ops s, rfl, ?_⟩
  exact first_error_eq_none_iff _

/-- Witness for C2: the amended theorem applied to a concrete operation
list; the exec of a single successful operation returns normally. -/
theorem C2_witness :
    (concurrently_exec [fun s => ((none : Option PyErr), s + 1)] (0 : Nat)).1
      = none := by
  refine (C2_amended Nat [fun s => ((none : Option PyErr), s + 1)] 0).2.2.2.mpr ?_
  intro r hr
  rw [show (gather_return_exceptions [fun s => ((none : Option PyErr), s + 1)]
      (0 : Nat)).1 = [none] from rfl] at hr
  simpa using hr

/-! ## Request/reply lemmas and the claim C1 theorems -/

lemma record_output_gen (raised : Option PyErr) (wrote : Option String)
    (st : FileOpState) (out : FsPath) :
    ((record_output_after raised wrote st out).2.generated_outputs
        = if (record_output_after raised wrote st out).1 = none
          then setAdd st.generated_outputs out else st.generated_outputs) ∧
    ((record_output_after raised wrote st out).1 ≠ none →
        (record_output_after raised wrote st out).2 = st) := by
  cases raised <;> cases wrote <;> simp [record_output_after]

lemma img_raisedOut (env : RpcEnv) (rs ns nsn : String) :
    (process_image_request env rs ns nsn).raisedOut
      = if env.connectOk then none else some .connectionError := by
  unfold process_image_request
  by_cases hc : env.connectOk
  · simp only [hc, Bool.not_true, Bool.false_eq_true, if_false, if_true]
    by_cases hs : env.subscribeOk
    · simp only [hs, Bool.not_true, Bool.false_eq_true, if_false]
      repeat' split
      all_goals rfl
    · simp only [hs, Bool.not_false, if_true]
  · simp [hc]

lemma nb_raisedOut (env : RpcEnv) (rs : String) :
    (process_nb_request env rs).raisedOut
      = if env.connectOk then none else some .connectionError := by
  unfold process_nb_request
  by_cases hc : env.connectOk
  · simp only [hc, Bool.not_true, Bool.false_eq_true, if_false, if_true]
    by_cases hs : env.subscribeOk
    · simp only [hs, Bool.not_true, Bool.false_eq_true, if_false]
      repeat' split
      all_goals rfl
    · simp only [hs, Bool.not_false, if_true]
  · simp [hc]

/-- Claim C1 counterexample: a PlantUML conversion whose worker reply is
an error envelope still records the output path.  The reply handling
raises AttributeError, which process_image_request swallows, so exec
returns normally, nothing is written to disk, and the output path is
added to generated_outputs although the conversion failed. -/
theorem C1_counterexample :
    (process_image_request
        ⟨true, true, fun _ => .pubOk,
          some (.jsonData (.obj [("error", .str "diagram failed")]))⟩
        "r" "plantuml.process" "PLANTUML_PROCESS_STREAM").decodeOutcome
      = some (.raised .attributeError) ∧
    convert_plantuml_exec
        ⟨true, true, fun _ => .pubOk,
          some (.jsonData (.obj [("error", .str "diagram failed")]))⟩
        ⟨[], []⟩ "r" ["img", "diag.png"]
      = (none, ⟨[], [["img", "diag.png"]]⟩) := by
  exact ⟨rfl, rfl⟩

/-- Claim C1 amended: no leaf operation partially mutates
generated_outputs: each exec either raises, leaving the state untouched
(a broker connection failure for the conversion operations, a missing
input file for the copy), or returns normally having added exactly its
output path.  However for the PlantUML, DrawIO and notebook operations a
failed conversion whose error was swallowed inside the request helper
also returns normally, so the output path is recorded even when no
artifact was produced; only CopyFileOperation records the path exactly
when the artifact exists. -/
theorem C1_amended :
    ∀ (env : RpcEnv) (st : FileOpState) (rs : String) (out inp : FsPath),
      ((convert_plantuml_exec env st rs out).2.generated_outputs
          = if (convert_plantuml_exec env st rs out).1 = none
            then setAdd st.generated_outputs out else st.generated_outputs) ∧
      ((convert_plantuml_exec env st rs out).1 ≠ none →
          (convert_plantuml_exec env st rs out).2 = st) ∧
      ((convert_drawio_exec env st rs out).2.generated_outputs
          = if (convert_drawio_exec env st rs out).1 = none
            then setAdd st.generated_outputs out else st.generated_outputs) ∧
      ((convert_drawio_exec env st rs out).1 ≠ none →
          (convert_drawio_exec env st rs out).2 = st) ∧
      ((process_notebook_exec env st rs out).2.generated_outputs
          = if (process_notebook_exec env st rs out).1 = none
            then setAdd st.generated_outputs out else st.generated_outputs) ∧
      ((process_notebook_exec env st rs out).1 ≠ none →
          (process_notebook_exec env st rs out).2 = st) ∧
      ((copy_file_exec st inp out).2.generated_outputs
          = if (copy_file_exec st inp out).1 = none
            then setAdd st.generated_outputs out else st.generated_outputs) ∧
      ((copy_file_exec st inp out).1 ≠ none → (copy_file_exec st inp out).2 = st) := by
  intro env st rs out inp
  have h1 := record_output_gen
    (process_image_request env rs "plantuml.process" "PLANTUML_PROCESS_STREAM").raisedOut
    (process_image_request env rs "plantuml.process" "PLANTUML_PROCESS_STREAM").wroteFile
    st out
  have h2 := record_output_gen
    (process_image_request env rs "drawio.process" "DRAWIO_PROCESS_STREAM").raisedOut
    (process_image_request env rs "drawio.process" "DRAWIO_PROCESS_STREAM").wroteFile
    st out
  have h3 := record_output_gen (process_nb_request env rs).raisedOut
    (process_nb_request env rs).wroteFile st out
  refine ⟨h1.1, h1.2, h2.1, h2.2, h3.1, h3.2, ?_, ?_⟩
  · unfold copy_file_exec
    by_cases hd : inp ∈ st.disk <;> simp [hd]
  · unfold copy_file_exec
    by_cases hd : inp ∈ st.disk <;> simp [hd]

/-- Witness for C1: the amended theorem applied at concrete inputs, a
failing connection leaving the state untouched and a successful copy
recording its output. -/
theorem C1_witness :
    (convert_plantuml_exec ⟨false, true, fun _ => .pubOk, none⟩ ⟨[], []⟩ "r"
        ["a.png"]).2 = ⟨[], []⟩ ∧
    (copy_file_exec ⟨[["in.txt"]], []⟩ ["in.txt"] ["out.txt"]).2.generated_outputs
      = [["out.txt"]] := by
  constructor
  · exact (C1_amended ⟨false, true, fun _ => .pubOk, none⟩ ⟨[], []⟩ "r"
      ["a.png"] []).2.1 (by decide)
  · have h := (C1_amended ⟨false, true, fun _ => .pubOk, none⟩ ⟨[["in.txt"]], []⟩ "r"
      ["out.txt"] ["in.txt"]).2.2.2.2.2.2.1
    rw [h]
    rfl

/-! ## Claim C4 theorems: reply decoding -/

/-- Claim C4 counterexample: the three-case contract fails on both reply
paths.  A notebook reply that is a JSON object with a result key whose
value is the empty string is not written but logged as a protocol error,
because the walrus test checks truthiness rather than key presence; and
an image reply with an error key does not log the worker's explanation,
it raises AttributeError inside the handler, the surrounding catch-all
swallows it and the operation then records its output as if the
conversion had succeeded. -/
theorem C4_counterexample :
    write_notebook_to_file (.obj [("result", .str "")]) = .noResultKeyLogged ∧
    decode_image_reply (.obj [("error", .str "conversion failed")])
      = .raised .attributeError ∧
    convert_drawio_exec
        ⟨true, true, fun _ => .pubOk,
          some (.jsonData (.obj [("error", .str "conversion failed")]))⟩
        ⟨[], []⟩ "r" ["img", "x.png"]
      = (none, ⟨[], [["img", "x.png"]]⟩) := by
  exact ⟨rfl, rfl, rfl⟩

/-- Claim C4 amended: notebook replies are discriminated into the three
cases, but by truthiness: an object with a truthy string result writes
the artifact; an object without a truthy result but with a truthy error
logs the worker's explanation; an object with neither is logged as a
protocol error, and a non-object reply is logged as well.  Image replies
handle only the result case: an object without a result key, in
particular an error reply, raises AttributeError internally, and a
non-object image reply is silently skipped.  In both paths every error
after a successful connect is caught, so decoding never crashes the
scheduler. -/
theorem C4_amended :
    (∀ (fields : List (String × Json)) (s : String),
        fields.lookup "result" = some (.str s) → s ≠ "" →
        write_notebook_to_file (.obj fields) = .wrote s) ∧
    (∀ (fields : List (String × Json)) (e : Json),
        fields.lookup "result" = none → fields.lookup "error" = some e →
        e.truthy = true →
        write_notebook_to_file (.obj fields) = .workerErrorLogged e) ∧
    (∀ fields : List (String × Json),
        fields.lookup "result" = none →
        optTruthy (fields.lookup "error") = false →
        write_notebook_to_file (.obj fields) = .noResultKeyLogged) ∧
    (∀ s : String, write_notebook_to_file (.str s) = .notDictLogged) ∧
    (∀ xs : List Json, write_notebook_to_file (.arr xs) = .notDictLogged) ∧
    (∀ fields : List (String × Json),
        fields.lookup "result" = none →
        decode_image_reply (.obj fields) = .raised .attributeError) ∧
    (∀ s : String, decode_image_reply (.str s) = .skipped) ∧
    (∀ (env : RpcEnv) (rs ns nsn : String), env.connectOk = true →
        (process_image_request env rs ns nsn).raisedOut = none) ∧
    (∀ (env : RpcEnv) (rs : String), env.connectOk = true →
        (process_nb_request env rs).raisedOut = none) := by
  refine ⟨?_, ?_, ?_, fun s => rfl, fun xs => rfl, ?_, fun s => rfl, ?_, ?_⟩
  · intro fields s hres hs
    simp only [write_notebook_to_file]
    rw [hres]
    simp [optTruthy, Json.truthy, hs]
  · intro fields e hres herr htr
    simp only [write_notebook_to_file]
    rw [hres, herr]
    simp [optTruthy, htr]
  · intro fields hres herr
    simp only [write_notebook_to_file]
    rw [hres, herr]
    simp [optTruthy]
  · intro fields hres
    simp only [decode_image_reply]
    rw [hres]
  · intro env rs ns nsn hc
    rw [img_raisedOut, if_pos hc]
  · intro env rs hc
    rw [nb_raisedOut, if_pos hc]

/-- Witness for C4: the amended theorem applied at concrete replies and
environments, discharging each hypothesis. -/
theorem C4_witness :
    write_notebook_to_file (.obj [("result", .str "nb-text")]) = .wrote "nb-text" ∧
    write_notebook_to_file (.obj [("error", .str "boom")])
      = .workerErrorLogged (.str "boom") ∧
    write_notebook_to_file (.obj [("status", .str "done")]) = .noResultKeyLogged ∧
    decode_image_reply (.obj [("error", .str "boom")]) = .raised .attributeError ∧
    (process_image_request ⟨true, true, fun _ => .pubOk, none⟩ "r" "plantuml.process"
        "PLANTUML_PROCESS_STREAM").raisedOut = none ∧
    (process_nb_request ⟨true, true, fun _ => .pubOk, none⟩ "r").raisedOut = none := by
  refine ⟨?_, ?_, ?_, ?_, ?_, ?_⟩
  · exact C4_amended.1 [("result", .str "nb-text")] "nb-text" rfl (by decide)
  · exact C4_amended.2.1 [("error", .str "boom")] (.str "boom") rfl rfl (by decide)
  · exact C4_amended.2.2.1 [("status", .str "done")] rfl rfl
  · exact C4_amended.2.2.2.2.2.1 [("error", .str "boom")] rfl
  · exact C4_amended.2.2.2.2.2.2.2.1 ⟨true, true, fun _ => .pubOk, none⟩
      "r" "plantuml.process" "PLANTUML_PROCESS_STREAM" rfl
  · exact C4_amended.2.2.2.2.2.2.2.2 ⟨true, true, fun _ => .pubOk, none⟩ "r" rfl

/-! ## Claim C6 theorem: subscribe before publish -/

lemma publish_index_ge_two {l : List NatsEvent} {i : Nat} {a b s t : String}
    (h : (NatsEvent.subscribeEv a b :: NatsEvent.flushEv :: l)[i]?
      = some (.publishEv s t)) : 2 ≤ i := by
  match i with
  | 0 => simp at h
  | 1 => simp at h
  | n + 2 => omega

/-- Claim C6: in both RPC paths, the image conversion request and the
notebook processing request, the subscription to the generated reply
subject is established and flushed before any publish of the request
message: whenever the event trace contains a publish event, the trace
starts with the subscribe event on the reply stream followed by the
flush, and every publish event comes strictly after both. -/
theorem C6_subscribe_before_publish :
    (∀ (env : RpcEnv) (rs ns nsn : String) (i : Nat) (s t : String),
        (process_image_request env rs ns nsn).trace[i]? = some (.publishEv s t) →
        (process_image_request env rs ns nsn).trace[0]?
            = some (.subscribeEv rs "IMG_RESULT_STREAM") ∧
        (process_image_request env rs ns nsn).trace[1]? = some .flushEv ∧
        2 ≤ i) ∧
    (∀ (env : RpcEnv) (rs : String) (i : Nat) (s t : String),
        (process_nb_request env rs).trace[i]? = some (.publishEv s t) →
        (process_nb_request env rs).trace[0]?
            = some (.subscribeEv rs "NOTEBOOK_RESULT_STREAM") ∧
        (process_nb_request env rs).trace[1]? = some .flushEv ∧
        2 ≤ i) := by
  constructor
  · intro env rs ns nsn i s t h
    unfold process_image_request at *
    by_cases hc : env.connectOk
    · simp only [hc, Bool.not_true, Bool.false_eq_true, if_false] at *
      by_cases hs : env.subscribeOk
      · simp only [hs, Bool.not_true, Bool.false_eq_true, if_false] at *
        revert h
        repeat' split
        all_goals
          intro h
          simp only [List.cons_append, List.nil_append] at *
          exact ⟨by simp, by simp, publish_index_ge_two h⟩
      · simp only [hs, Bool.not_false, if_true] at h
        simp at h
    · simp only [hc, Bool.not_false, if_true] at h
      simp at h
  · intro env rs i s t h
    unfold process_nb_request at *
    by_cases hc : env.connectOk
    · simp only [hc, Bool.not_true, Bool.false_eq_true, if_false] at *
      by_cases hs : env.subscribeOk
      · simp only [hs, Bool.not_true, Bool.false_eq_true, if_false] at *
        revert h
        repeat' split
        all_goals
          intro h
          simp only [List.cons_append, List.nil_append] at *
          exact ⟨by simp, by simp, publish_index_ge_two h⟩
      · simp only [hs, Bool.not_false, if_true] at h
        simp at h
    · simp only [hc, Bool.not_false, if_true] at h
      simp at h

/-- Witness for C6: a concrete environment in which the request is
published; the third trace event is the publish and the theorem places
it after the subscribe and the flush. -/
theorem C6_witness :
    (process_image_request ⟨true, true, fun _ => .pubOk,
        some (.jsonData (.obj [("result", .str "png-bytes")]))⟩ "rsub"
        "plantuml.process" "PLANTUML_PROCESS_STREAM").trace[0]?
      = some (.subscribeEv "rsub" "IMG_RESULT_STREAM") ∧
    (process_nb_request ⟨true, true, fun _ => .pubOk,
        some (.jsonData (.obj [("result", .str "nb")]))⟩ "rsub").trace[0]?
      = some (.subscribeEv "rsub" "NOTEBOOK_RESULT_STREAM") := by
  constructor
  · exact (C6_subscribe_before_publish.1 ⟨true, true, fun _ => .pubOk,
      some (.jsonData (.obj [("result", .str "png-bytes")]))⟩ "rsub"
      "plantuml.process" "PLANTUML_PROCESS_STREAM" 2 "plantuml.process"
      "PLANTUML_PROCESS_STREAM" rfl).1
  · exact (C6_subscribe_before_publish.2 ⟨true, true, fun _ => .pubOk,
      some (.jsonData (.obj [("result", .str "nb")]))⟩ "rsub" 2
      "notebook.process" "NOTEBOOK_PROCESS_STREAM" rfl).1

/-! ## Claim C8 theorems: stream bootstrap -/

lemma find_delete_self (b : Broker) (n : String) :
    find_stream (delete_stream b n) n = none := by
  induction b with
  | nil => rfl
  | cons p bs ih =>
    by_cases h : p.1 = n <;>
      simp [delete_stream, List.filter_cons, h, find_stream, ih] at *

lemma find_delete_ne (b : Broker) (n m : String) (h : m ≠ n) :
    find_stream (delete_stream b n) m = find_stream b m := by
  induction b with
  | nil => rfl
  | cons p bs ih =>
    simp only [delete_stream, List.filter_cons] at *
    by_cases hp : p.1 = n
    · rw [if_neg (by simp [hp])]
      rw [show find_stream (p :: bs) m
          = if p.1 = m then some p.2 else find_stream bs m from rfl]
      rw [if_neg (fun hpm => h (by rw [← hpm, hp]))]
      exact ih
    · rw [if_pos (by simp [hp])]
      rw [show find_stream (p :: List.filter (fun p => p.1 != n) bs) m
          = if p.1 = m then some p.2
            else find_stream (List.filter (fun p => p.1 != n) bs) m from rfl]
      rw [show find_stream (p :: bs) m
          = if p.1 = m then some p.2 else find_stream bs m from rfl]
      by_cases hpm : p.1 = m
      · rw [if_pos hpm, if_pos hpm]
      · rw [if_neg hpm, if_neg hpm]
        exact ih

lemma find_append_of_none {l1 l2 : Broker} {n : String}
    (h : find_stream l1 n = none) :
    find_stream (l1 ++ l2) n = find_stream l2 n := by
  induction l1 with
  | nil => rfl
  | cons p bs ih =>
    rw [List.cons_append] at *
    rw [show find_stream (p :: (bs ++ l2)) n
        = if p.1 = n then some p.2 else find_stream (bs ++ l2) n from rfl]
    rw [show find_stream (p :: bs) n
        = if p.1 = n then some p.2 else find_stream bs n from rfl] at h
    by_cases hp : p.1 = n
    · rw [if_pos hp] at h
      exact absurd h (by simp)
    · rw [if_neg hp] at h
      rw [if_neg hp]
      exact ih h

lemma find_add_ne (b : Broker) (n m : String) (subj : List String) (h : m ≠ n) :
    find_stream (add_stream b n subj) m = find_stream b m := by
  induction b with
  | nil =>
    show (if n = m then some subj else none) = none
    rw [if_neg (fun hh => h hh.symm)]
  | cons p bs ih =>
    rw [add_stream, List.cons_append]
    rw [show find_stream (p :: (bs ++ [(n, subj)])) m
        = if p.1 = m then some p.2 else find_stream (bs ++ [(n, subj)]) m from rfl]
    rw [show find_stream (p :: bs) m
        = if p.1 = m then some p.2 else find_stream bs m from rfl]
    by_cases hpm : p.1 = m
    · rw [if_pos hpm, if_pos hpm]
    · rw [if_neg hpm, if_neg hpm]
      exact ih

lemma create_stream_loop_preserve (env : InitEnv) (n : String)
    (subj : List String) (m : String) (h : m ≠ n) :
    ∀ (fuel i : Nat) (b : Broker),
      find_stream (create_stream_loop env n subj i fuel b) m = find_stream b m := by
  intro fuel
  induction fuel with
  | zero => intro i b; rfl
  | succ fuel ih =>
    intro i b
    unfold create_stream_loop
    by_cases he : stream_exists b n
    · rw [if_pos he]
    · rw [if_neg he]
      cases env.addResult n i with
      | addOk => exact find_add_ne b n m subj h
      | addTimeout => exact ih (i + 1) b
      | addNotFound => exact ih (i + 1) b

lemma create_stream_loop_addOk (env : InitEnv) (n : String) (subj : List String) :
    ∀ (fuel i : Nat) (b : Broker), fuel ≠ 0 → stream_exists b n = false →
      env.addResult n i = .addOk →
      create_stream_loop env n subj i fuel b = add_stream b n subj := by
  intro fuel i b hf he h0
  cases fuel with
  | zero => exact absurd rfl hf
  | succ f =>
    unfold create_stream_loop
    rw [if_neg (by simp [he]), h0]

lemma create_stream_loop_exists (env : InitEnv) (n : String) (subj : List String) :
    ∀ (fuel i : Nat) (b : Broker), fuel ≠ 0 → stream_exists b n = true →
      create_stream_loop env n subj i fuel b = b := by
  intro fuel i b hf he
  cases fuel with
  | zero => exact absurd rfl hf
  | succ f =>
    unfold create_stream_loop
    rw [if_pos he]

lemma create_stream_preserve (env : InitEnv) (fd : Bool) (b : Broker)
    (n : String) (subj : List String) (m : String) (h : m ≠ n) :
    find_stream (create_stream env fd b n subj) m = find_stream b m := by
  unfold create_stream
  rw [create_stream_loop_preserve env n subj m h]
  cases fd with
  | false => rfl
  | true => simp [find_delete_ne b n m h]

lemma create_stream_forced_ok (env : InitEnv) (b : Broker) (n : String)
    (subj : List String) (h0 : env.addResult n 0 = .addOk) :
    find_stream (create_stream env true b n subj) n = some subj := by
  have hne : stream_exists (delete_stream b n) n = false := by
    unfold stream_exists
    rw [find_delete_self]
    rfl
  show find_stream (create_stream_loop env n subj 0 5 (delete_stream b n)) n = some subj
  rw [create_stream_loop_addOk env n subj 5 0 (delete_stream b n) (by decide) hne h0]
  unfold add_stream
  rw [find_append_of_none (find_delete_self b n)]
  show (if n = n then some subj else none) = some subj
  rw [if_pos rfl]

/-- Claim C8: bootstrapping is idempotent and failure-isolated.  A
channel that already exists with the same subjects is recreated (with
force-delete) or accepted as-is (without), in both cases without raising
and leaving the channel defined with those subjects; every channel is
attempted no matter what the earlier outcomes were; and a channel whose
own add succeeds is created even when another channel's creation fails,
as the run with the faulty drawio channel shows concretely. -/
theorem C8_bootstrap_idempotent_isolated :
    (∀ (b : Broker) (n : String) (subj : List String) (fd : Bool),
        find_stream b n = some subj →
        find_stream (create_stream allOkEnv fd b n subj) n = some subj) ∧
    (∀ (env : InitEnv) (fd : Bool) (b : Broker),
        (create_streams env fd b).2
          = ["DRAWIO_PROCESS_STREAM", "PLANTUML_PROCESS_STREAM",
             "IMG_RESULT_STREAM", "NOTEBOOK_PROCESS_STREAM",
             "NOTEBOOK_RESULT_STREAM"]) ∧
    (∀ (env : InitEnv) (b : Broker) (n : String) (subj : List String),
        (n, subj) ∈ NATS_INIT_STREAMS → env.addResult n 0 = .addOk →
        find_stream (create_streams env true b).1 n = some subj) ∧
    (create_streams drawioFaultyEnv true []).1
      = [("PLANTUML_PROCESS_STREAM", ["plantuml.process", "plantuml.process.>"]),
         ("IMG_RESULT_STREAM", ["img.result", "img.result.>"]),
         ("NOTEBOOK_PROCESS_STREAM", ["notebook.process", "notebook.process.>"]),
         ("NOTEBOOK_RESULT_STREAM", ["notebook.result", "notebook.result.>"])] := by
  refine ⟨?_, fun env fd b => rfl, ?_, by rfl⟩
  · intro b n subj fd h
    cases fd with
    | false =>
      have he : stream_exists b n = true := by
        unfold stream_exists
        rw [h]
        rfl
      show find_stream (create_stream_loop allOkEnv n subj 0 5 b) n = some subj
      rw [create_stream_loop_exists allOkEnv n subj 5 0 b (by decide) he]
      exact h
    | true => exact create_stream_forced_ok allOkEnv b n subj rfl
  · intro env b n subj hmem h0
    have hs : (create_streams env true b).1
        = create_stream env true (create_stream env true (create_stream env true
            (create_stream env true (create_stream env true b
              "DRAWIO_PROCESS_STREAM" ["drawio.process", "drawio.process.>"])
              "PLANTUML_PROCESS_STREAM" ["plantuml.process", "plantuml.process.>"])
              "IMG_RESULT_STREAM" ["img.result", "img.result.>"])
              "NOTEBOOK_PROCESS_STREAM" ["notebook.process", "notebook.process.>"])
              "NOTEBOOK_RESULT_STREAM" ["notebook.result", "notebook.result.>"] := rfl
    rw [hs]
    simp only [NATS_INIT_STREAMS, List.mem_cons, List.not_mem_nil, or_false,
      Prod.mk.injEq] at hmem
    rcases hmem with ⟨rfl, rfl⟩ | ⟨rfl, rfl⟩ | ⟨rfl, rfl⟩ | ⟨rfl, rfl⟩ | ⟨rfl, rfl⟩
    · rw [create_stream_preserve _ _ _ _ _ _ (by decide),
        create_stream_preserve _ _ _ _ _ _ (by decide),
        create_stream_preserve _ _ _ _ _ _ (by decide),
        create_stream_preserve _ _ _ _ _ _ (by decide)]
      exact create_stream_forced_ok env b _ _ h0
    · rw [create_stream_preserve _ _ _ _ _ _ (by decide),
        create_stream_preserve _ _ _ _ _ _ (by decide),
        create_stream_preserve _ _ _ _ _ _ (by decide)]
      exact create_stream_forced_ok env _ _ _ h0
    · rw [create_stream_preserve _ _ _ _ _ _ (by decide),
        create_stream_preserve _ _ _ _ _ _ (by decide)]
      exact create_stream_forced_ok env _ _ _ h0
    · rw [create_stream_preserve _ _ _ _ _ _ (by decide)]
      exact create_stream_forced_ok env _ _ _ h0
    · exact create_stream_forced_ok env _ _ _ h0

/-- Witness for C8: a broker that already holds the image result stream
with its subjects keeps it across a bootstrap, and the faulty-drawio
environment still gets the notebook result stream created. -/
theorem C8_witness :
    find_stream (create_stream allOkEnv false
        [("IMG_RESULT_STREAM", ["img.result", "img.result.>"])]
        "IMG_RESULT_STREAM" ["img.result", "img.result.>"])
        "IMG_RESULT_STREAM"
      = some ["img.result", "img.result.>"] ∧
    find_stream (create_streams drawioFaultyEnv true []).1 "NOTEBOOK_RESULT_STREAM"
      = some ["notebook.result", "notebook.result.>"] := by
  constructor
  · exact C8_bootstrap_idempotent_isolated.1
      [("IMG_RESULT_STREAM", ["img.result", "img.result.>"])]
      "IMG_RESULT_STREAM" ["img.result", "img.result.>"] false rfl
  · exact C8_bootstrap_idempotent_isolated.2.2.1 drawioFaultyEnv []
      "NOTEBOOK_RESULT_STREAM" ["notebook.result", "notebook.result.>"]
      (by decide) rfl

/-! ## Claim C9 theorems: deleting generated outputs -/

lemma foldl_erase_self :
    ∀ l : List FsPath, l.Nodup → List.foldl List.erase l l = [] := by
  intro l
  induction l with
  | nil => intro _; rfl
  | cons a t ih =>
    intro hnd
    rw [List.foldl_cons, List.erase_cons_head]
    exact ih (List.nodup_cons.mp hnd).2

lemma foldl_erase_subset :
    ∀ (ps acc : List FsPath), List.foldl List.erase acc ps ⊆ acc := by
  intro ps
  induction ps with
  | nil => intro acc q hq; exact hq
  | cons a t ih =>
    intro acc
    rw [List.foldl_cons]
    exact (ih (acc.erase a)).trans (List.erase_subset a acc)

lemma not_mem_foldl_erase :
    ∀ (ps acc : List FsPath), acc.Nodup →
      ∀ p ∈ ps, p ∉ List.foldl List.erase acc ps := by
  intro ps
  induction ps with
  | nil => intro acc _ p hp; exact absurd hp (List.not_mem_nil p)
  | cons a t ih =>
    intro acc hnd p hp
    rw [List.foldl_cons]
    rcases List.mem_cons.mp hp with rfl | hpt
    · intro hmem
      exact hnd.not_mem_erase (foldl_erase_subset t (acc.erase p) hmem)
    · exact ih (acc.erase a) (hnd.erase a) p hpt

lemma run_delete_list (ps : List FsPath) :
    ∀ st : FileOpState, ps.Nodup → (∀ p ∈ ps, p ∈ st.disk) →
      (run_all (ps.map delete_file_exec) st).1 = ps.map (fun _ => none) ∧
      (run_all (ps.map delete_file_exec) st).2
        = ⟨List.foldl List.erase st.disk ps,
           List.foldl List.erase st.generated_outputs ps⟩ := by
  induction ps with
  | nil =>
    intro st _ _
    exact ⟨rfl, rfl⟩
  | cons p ps ih =>
    intro st hnd hall
    have hp : p ∈ st.disk := hall p (List.mem_cons_self p ps)
    have hstep : delete_file_exec p st
        = (none, ⟨st.disk.erase p, st.generated_outputs.erase p⟩) := by
      unfold delete_file_exec
      rw [if_pos hp]
    have hnodup := List.nodup_cons.mp hnd
    have hall2 : ∀ q ∈ ps, q ∈ st.disk.erase p := by
      intro q hq
      have hne : q ≠ p := fun hqp => hnodup.1 (hqp ▸ hq)
      exact (List.mem_erase_of_ne hne).mpr (hall q (List.mem_cons_of_mem p hq))
    have IH := ih ⟨st.disk.erase p, st.generated_outputs.erase p⟩ hnodup.2 hall2
    constructor
    · simp only [List.map_cons, run_all, hstep, IH.1]
    · simp only [List.map_cons, run_all, hstep, IH.2, List.foldl_cons]

/-- Claim C9: executing the delete operation of a file whose recorded
outputs are all on disk removes each of them from disk and from
generated_outputs, succeeds, and leaves generated_outputs empty.  The
two path lists carry the no-duplicate invariant of the Python sets they
model. -/
theorem C9_delete_op_clears_outputs :
    ∀ st : FileOpState, st.generated_outputs ≠ [] →
      st.generated_outputs.Nodup → st.disk.Nodup →
      (∀ p ∈ st.generated_outputs, p ∈ st.disk) →
      (run_delete_op st).1 = none ∧
      (run_delete_op st).2.generated_outputs = [] ∧
      (∀ p ∈ st.generated_outputs, p ∉ (run_delete_op st).2.disk) ∧
      (∀ q ∈ (run_delete_op st).2.disk, q ∈ st.disk) := by
  intro st _ hgen hdisk hall
  have hrun := run_delete_list st.generated_outputs st hgen hall
  have hro : run_delete_op st
      = (first_error (run_all (st.generated_outputs.map delete_file_exec) st).1,
         (run_all (st.generated_outputs.map delete_file_exec) st).2) := rfl
  rw [hro, hrun.1, hrun.2]
  refine ⟨?_, ?_, ?_, ?_⟩
  · rw [first_error_eq_none_iff]
    intro r hr
    rcases List.mem_map.mp hr with ⟨q, _, rfl⟩
    rfl
  · exact foldl_erase_self st.generated_outputs hgen
  · intro p hp
    exact not_mem_foldl_erase st.generated_outputs st.disk hdisk p hp
  · intro q hq
    exact foldl_erase_subset st.generated_outputs st.disk hq

/-- Witness for C9: a concrete file state with one recorded artifact on
disk; the delete operation empties generated_outputs. -/
theorem C9_witness :
    (run_delete_op ⟨[["out", "a.png"], ["src", "f.py"]], [["out", "a.png"]]⟩).1
      = none ∧
    (run_delete_op ⟨[["out", "a.png"], ["src", "f.py"]],
        [["out", "a.png"]]⟩).2.generated_outputs = [] := by
  have h := C9_delete_op_clears_outputs
    ⟨[["out", "a.png"], ["src", "f.py"]], [["out", "a.png"]]⟩
    (by decide) (by decide) (by decide) (by decide)
  exact ⟨h.1, h.2.1⟩

end Clx
